import Mathlib

/-!
Shallow embedding of the censudex-orders-service core
(src/orders/services/order.service.ts and src/orders/services/rabbitmq.service.ts).

The persistent store is modelled as a `List Order` (the rows of the orders
table, items embedded).  Every effectful operation is modelled as a pure
function returning `(result, new store, trace of side effects)`, where the
trace records repository saves, broker publishes and notification emails in
the exact order the source code performs them.  Timestamps (`new Date()`)
are modelled by an explicit `now : Nat` parameter.  Infrastructure calls
(broker publish, email) are modelled as succeeding; their payloads are
projected to the order id, which is all the verified properties inspect.
-/

namespace Censudex

/-- The fixed order-status enumeration
`{pendiente, en_procesamiento, enviado, entregado, cancelado}`. -/
inductive Status where
  | pendiente
  | en_procesamiento
  | enviado
  | entregado
  | cancelado
deriving DecidableEq, Repr

/-- OrderItem entity (order-item.entity.ts): product data captured at
creation time, with `subtotal = unitPrice * quantity`. -/
structure OrderItem where
  productId : String
  productName : String
  productImageUrl : String
  unitPrice : Nat
  quantity : Nat
  subtotal : Nat
deriving DecidableEq, Repr

/-- Order entity (order.entity.ts).  Timestamps are `Option Nat`
(absent until set); `isDeleted` is the soft-delete flag. -/
structure Order where
  id : String
  clientId : String
  clientName : String
  clientEmail : String
  shippingAddress : String
  status : Status
  total : Nat
  trackingNumber : Option String
  cancellationReason : Option String
  shippedAt : Option Nat
  deliveredAt : Option Nat
  cancelledAt : Option Nat
  items : List OrderItem
  isDeleted : Bool
deriving DecidableEq, Repr

/-- The error taxonomy thrown by OrdersService: `notFound` models
NotFoundException, `badRequest` models BadRequestException with a message,
`insufficientStock` models the BadRequestException carrying the structured
`unavailableProducts` payload thrown in `create`. -/
inductive ServiceError where
  | notFound (id : String)
  | badRequest (msg : String)
  | insufficientStock (unavailable : List (String × Nat × Nat))
deriving DecidableEq, Repr

/-- The four durable queues of rabbitmq.service.ts. -/
inductive Queue where
  | orderCreated
  | orderShipped
  | orderDelivered
  | orderFailed
deriving DecidableEq, Repr

/-- Email notifications sent through SendGridService. -/
inductive EmailKind where
  | confirmation
  | statusUpdate (previous : Status)
  | cancellation
deriving DecidableEq, Repr

/-- One observable side effect of an OrdersService operation, in program
order: a repository save, a broker publish (payload projected to the order
id) or a notification email. -/
inductive Effect where
  | repoSave (o : Order)
  | publish (q : Queue) (orderId : String)
  | email (k : EmailKind)
deriving DecidableEq, Repr

/-- Decidable equality for `Except`, so that concrete operation results can
be compared by evaluation. -/
instance {ε α : Type} [DecidableEq ε] [DecidableEq α] :
    DecidableEq (Except ε α) := fun x y =>
  match x, y with
  | Except.ok a, Except.ok b =>
    if h : a = b then isTrue (by rw [h])
    else isFalse (by intro hc; cases hc; exact h rfl)
  | Except.error a, Except.error b =>
    if h : a = b then isTrue (by rw [h])
    else isFalse (by intro hc; cases hc; exact h rfl)
  | Except.ok _, Except.error _ => isFalse (by intro hc; cases hc)
  | Except.error _, Except.ok _ => isFalse (by intro hc; cases hc)

/-- `orderRepository.findOne({ where: { id, isDeleted: false } })`:
the first non-deleted row with the given id, or none. -/
def findOne (store : List Order) (id : String) : Option Order :=
  store.find? (fun o => o.id == id && !o.isDeleted)

/-- `orderRepository.save(order)`: updates the row with the same id if it
exists, otherwise inserts the order as a new row. -/
def saveOrder (store : List Order) (o : Order) : List Order :=
  if store.any (fun x => x.id == o.id) then
    store.map (fun x => if x.id == o.id then o else x)
  else
    store ++ [o]

/-- The transition table of `validateStatusTransition`
(order.service.ts lines 389-395): current status to its allowed targets. -/
def validTransitions : Status → List Status
  | .pendiente => [.en_procesamiento, .cancelado]
  | .en_procesamiento => [.enviado, .cancelado]
  | .enviado => [.entregado, .cancelado]
  | .entregado => []
  | .cancelado => []

/-- The error message of the invalid-transition BadRequestException
(the source interpolates the two statuses into this message). -/
def invalidTransitionMsg : String :=
  "No se puede cambiar de estado"

/-- `OrdersService.validateStatusTransition(currentStatus, newStatus)`:
succeeds iff `newStatus` is among the allowed targets of `currentStatus`,
otherwise throws a BadRequestException. -/
def validateStatusTransition (currentStatus newStatus : Status) :
    Except ServiceError Unit :=
  if newStatus ∈ validTransitions currentStatus then
    Except.ok ()
  else
    Except.error (ServiceError.badRequest invalidTransitionMsg)

/-- Lines 232-235 of updateStatus: validate the transition, then assign the
requested status to the loaded order. -/
def transitionStep (o : Order) (newStatus : Status) :
    Except ServiceError Order :=
  match validateStatusTransition o.status newStatus with
  | Except.error e => Except.error e
  | Except.ok () => Except.ok { o with status := newStatus }

/-- The edges of the transition table of spec section 4.3, as explicit
(current, requested) pairs. -/
def transitionTable : List (Status × Status) :=
  [ (.pendiente, .en_procesamiento), (.pendiente, .cancelado),
    (.en_procesamiento, .enviado), (.en_procesamiento, .cancelado),
    (.enviado, .entregado), (.enviado, .cancelado) ]

/-- One requested item of CreateOrderDto (productId plus quantity; the DTO
carries no price field). -/
structure CreateOrderItemDto where
  productId : String
  quantity : Nat
deriving DecidableEq, Repr

/-- CreateOrderDto (create-order.dto.ts). -/
structure CreateOrderDto where
  clientId : String
  clientName : String
  clientEmail : String
  shippingAddress : String
  items : List CreateOrderItemDto
deriving DecidableEq, Repr

/-- UpdateOrderStatusDto: requested status plus optional tracking number
(`none` models an absent field; the source treats the empty string as
absent too, via JavaScript falsiness). -/
structure UpdateOrderStatusDto where
  status : Status
  trackingNumber : Option String
deriving DecidableEq, Repr

/-- CancelOrderDto: optional cancellation reason. -/
structure CancelOrderDto where
  cancellationReason : Option String
deriving DecidableEq, Repr

/-- Result of `RabbitMQService.validateStock`: availability flag plus the
list of unavailable products as (productId, requested, available). -/
structure StockResult where
  allAvailable : Bool
  unavailable : List (String × Nat × Nat)
deriving DecidableEq, Repr

/-- `RabbitMQService.validateStock(items)` (rabbitmq.service.ts lines
218-236): both the try branch and the catch branch return
`{ allAvailable: true, unavailable: [] }`, for every item list. -/
def validateStock (_items : List CreateOrderItemDto) : StockResult :=
  { allAvailable := true, unavailable := [] }

/-- Product details as returned by `OrdersService.getProductDetails`
(order.service.ts lines 347-356): a fixed placeholder record, price 10000,
for every product id. -/
structure ProductDetails where
  id : String
  name : String
  price : Nat
  imageUrl : String
deriving DecidableEq, Repr

/-- `OrdersService.getProductDetails(productId)`: hardcoded sample data. -/
def getProductDetails (productId : String) : ProductDetails :=
  { id := productId
    name := "Producto de Ejemplo"
    price := 10000
    imageUrl := "https://via.placeholder.com/150" }

/-- The outcome type of every service operation: the value returned (or the
exception thrown), the store after the operation, and the ordered trace of
side effects. -/
def OpResult := Except ServiceError Order × List Order × List Effect

/-- `OrdersService.create` after the stock check has produced
`productsWithStock` (order.service.ts lines 64-108): reject on
`allAvailable = false`, otherwise build the order (status `pendiente`,
items priced via `getProductDetails`, `total` the running sum of
subtotals), save it, publish `order.created`, send the confirmation email.
`newId` models the id the database generates on save. -/
def createCore (productsWithStock : StockResult) (store : List Order)
    (newId : String) (dto : CreateOrderDto) : OpResult :=
  if !productsWithStock.allAvailable then
    (Except.error (ServiceError.insufficientStock productsWithStock.unavailable),
     store, [])
  else
    let orderItems := dto.items.map (fun itemDto =>
      let productDetails := getProductDetails itemDto.productId
      { productId := itemDto.productId
        productName := productDetails.name
        productImageUrl := productDetails.imageUrl
        unitPrice := productDetails.price
        quantity := itemDto.quantity
        subtotal := productDetails.price * itemDto.quantity : OrderItem })
    let totalAmount := (orderItems.map (fun it => it.subtotal)).sum
    let order : Order :=
      { id := newId
        clientId := dto.clientId
        clientName := dto.clientName
        clientEmail := dto.clientEmail
        shippingAddress := dto.shippingAddress
        status := .pendiente
        total := totalAmount
        trackingNumber := none
        cancellationReason := none
        shippedAt := none
        deliveredAt := none
        cancelledAt := none
        items := orderItems
        isDeleted := false }
    (Except.ok order, saveOrder store order,
     [Effect.repoSave order,
      Effect.publish Queue.orderCreated order.id,
      Effect.email EmailKind.confirmation])

/-- `OrdersService.create(createOrderDto)` (order.service.ts lines 58-116):
validates stock through RabbitMQService.validateStock, then proceeds as
`createCore`. -/
def create (store : List Order) (newId : String) (dto : CreateOrderDto) :
    OpResult :=
  createCore (validateStock dto.items) store newId dto

/-- The tracking-number BadRequestException message of updateStatus. -/
def trackingRequiredMsg : String :=
  "Se requiere numero de tracking para estado enviado"

/-- `OrdersService.updateStatus(id, updateDto)` (order.service.ts lines
218-289): load the non-deleted order, validate the transition, assign the
new status, run the per-status branch (for `enviado`: require a non-empty
tracking number, set it with `shippedAt`, publish `order.shipped`; for
`entregado`: set `deliveredAt`, publish `order.delivered`; for
`cancelado`: set `cancelledAt`), then save and send the status-update
email.  Note the publishes happen inside the switch, before the save. -/
def updateStatus (store : List Order) (now : Nat) (id : String)
    (updateDto : UpdateOrderStatusDto) : OpResult :=
  match findOne store id with
  | none => (Except.error (ServiceError.notFound id), store, [])
  | some order =>
    match transitionStep order updateDto.status with
    | Except.error e => (Except.error e, store, [])
    | Except.ok order1 =>
      let previousStatus := order.status
      let branch : Except ServiceError (Order × List Effect) :=
        match updateDto.status with
        | .enviado =>
          match updateDto.trackingNumber with
          | none =>
            Except.error (ServiceError.badRequest trackingRequiredMsg)
          | some t =>
            if t == "" then
              Except.error (ServiceError.badRequest trackingRequiredMsg)
            else
              Except.ok
                ({ order1 with trackingNumber := some t, shippedAt := some now },
                 [Effect.publish Queue.orderShipped order1.id])
        | .entregado =>
          Except.ok ({ order1 with deliveredAt := some now },
                     [Effect.publish Queue.orderDelivered order1.id])
        | .cancelado =>
          Except.ok ({ order1 with cancelledAt := some now }, [])
        | _ => Except.ok (order1, [])
      match branch with
      | Except.error e => (Except.error e, store, [])
      | Except.ok (order2, publishEffects) =>
        (Except.ok order2, saveOrder store order2,
         publishEffects ++
           [Effect.repoSave order2,
            Effect.email (EmailKind.statusUpdate previousStatus)])

/-- The disallowed-cancellation BadRequestException message. -/
def cannotCancelMsg : String :=
  "No se puede cancelar un pedido con este estado"

/-- `OrdersService.cancel(id, cancelDto)` (order.service.ts lines 296-331):
load the non-deleted order, reject if already `entregado` or `cancelado`,
otherwise set status `cancelado`, the reason (supplied value, or
"Cancelado por el usuario" when absent or empty) and `cancelledAt`, save
and send the cancellation email. -/
def cancel (store : List Order) (now : Nat) (id : String)
    (cancelDto : CancelOrderDto) : OpResult :=
  match findOne store id with
  | none => (Except.error (ServiceError.notFound id), store, [])
  | some order =>
    if order.status == .entregado || order.status == .cancelado then
      (Except.error (ServiceError.badRequest cannotCancelMsg), store, [])
    else
      let reason :=
        match cancelDto.cancellationReason with
        | some r => if r == "" then "Cancelado por el usuario" else r
        | none => "Cancelado por el usuario"
      let order1 :=
        { order with
            status := .cancelado
            cancellationReason := some reason
            cancelledAt := some now }
      (Except.ok order1, saveOrder store order1,
       [Effect.repoSave order1, Effect.email EmailKind.cancellation])

/-- The nested payload of an `order.failed.stock` message: the source reads
`messagePayload.orderId || messagePayload.OrderId` (capitalised variant),
each possibly absent; the empty string is falsy. -/
structure FailedStockPayload where
  orderId : Option String
  orderIdCap : Option String
deriving DecidableEq, Repr

/-- A received `order.failed.stock` message: `data.message` may be absent. -/
structure FailedStockMessage where
  message : Option FailedStockPayload
deriving DecidableEq, Repr

/-- `messagePayload.orderId || messagePayload.OrderId` with JavaScript
falsiness for the empty string. -/
def pickOrderId (p : FailedStockPayload) : Option String :=
  let alt :=
    match p.orderIdCap with
    | some s => if s == "" then none else some s
    | none => none
  match p.orderId with
  | some s => if s == "" then alt else some s
  | none => alt

/-- The order mutation of handleFailedStock (order.service.ts lines
436-438): cancel with reason "Stock insuficiente". -/
def cancelledByStock (o : Order) (now : Nat) : Order :=
  { o with
      status := .cancelado
      cancellationReason := some "Stock insuficiente"
      cancelledAt := some now }

/-- `OrdersService.handleFailedStock(data)` (order.service.ts lines
410-447): log and discard when the envelope or the order id is missing,
when the order is not found (or soft-deleted), or when it is no longer
`pendiente`; otherwise cancel it with reason "Stock insuficiente", save,
and send the cancellation email.  Returns (new store, effects). -/
def handleFailedStock (store : List Order) (now : Nat)
    (data : FailedStockMessage) : List Order × List Effect :=
  match data.message with
  | none => (store, [])
  | some messagePayload =>
    match pickOrderId messagePayload with
    | none => (store, [])
    | some orderId =>
      match findOne store orderId with
      | none => (store, [])
      | some order =>
        if order.status != .pendiente then
          (store, [])
        else
          let order1 := cancelledByStock order now
          (saveOrder store order1,
           [Effect.repoSave order1, Effect.email EmailKind.cancellation])

/-- Is this effect a repository save? -/
def isSave : Effect → Bool
  | .repoSave _ => true
  | _ => false

/-- Is this effect a broker publish? -/
def isPublish : Effect → Bool
  | .publish _ _ => true
  | _ => false

/-- Auxiliary scan for `saveBeforePublish`: `seenSave` records whether a
repository save has already occurred. -/
def saveBeforePublishAux (seenSave : Bool) : List Effect → Bool
  | [] => true
  | e :: rest =>
    if isPublish e then
      seenSave && saveBeforePublishAux seenSave rest
    else
      saveBeforePublishAux (seenSave || isSave e) rest

/-- Publish-after-commit ordering on an effect trace: every broker publish
is preceded (earlier in the trace) by some repository save. -/
def saveBeforePublish (trace : List Effect) : Bool :=
  saveBeforePublishAux false trace

/-- `RabbitMQService.maxReconnectAttempts` (rabbitmq.service.ts line 19). -/
def maxReconnectAttempts : Nat := 10

/-- The backoff delay computed after a failed attempt with the given
`retryCount` (rabbitmq.service.ts line 99):
`Math.min(1000 * Math.pow(2, retryCount), 30000)` milliseconds. -/
def backoffDelay (retryCount : Nat) : Nat :=
  min (1000 * 2 ^ retryCount) 30000

/-- Observable outcome of `RabbitMQService.connect`: how many connection
attempts were made, the delays waited between attempts (in order), whether
a connection was established, and whether the returned promise rejected
(i.e. an error was surfaced to the caller). -/
structure ConnectResult where
  attempts : Nat
  delays : List Nat
  connected : Bool
  threwToCaller : Bool
deriving DecidableEq, Repr

/-- `RabbitMQService.connect(retryCount)` (rabbitmq.service.ts lines
57-107), with the environment abstracted as `outcome : Nat → Bool` giving
the success of the attempt made at each retryCount value.  On failure with
`retryCount < maxReconnectAttempts` it waits `backoffDelay retryCount` and
recurses on `retryCount + 1`; once the budget is exhausted it logs and
returns normally — the catch block never rethrows, so the promise always
resolves. -/
def connectGo (outcome : Nat → Bool) (retryCount : Nat) :
    Nat → ConnectResult
  | 0 =>
    { attempts := 1, delays := [], connected := false, threwToCaller := false }
  | fuel + 1 =>
    if outcome retryCount then
      { attempts := 1, delays := [], connected := true, threwToCaller := false }
    else if retryCount < maxReconnectAttempts then
      let r := connectGo outcome (retryCount + 1) fuel
      { attempts := r.attempts + 1
        delays := backoffDelay retryCount :: r.delays
        connected := r.connected
        threwToCaller := r.threwToCaller }
    else
      { attempts := 1, delays := [], connected := false, threwToCaller := false }

/-- The recursion of `connect` measured by the remaining attempt budget:
the source recurses on `retryCount + 1` while
`retryCount < maxReconnectAttempts`, so the budget
`maxReconnectAttempts + 1 - retryCount` strictly decreases and the
fuel-zero branch of `connectGo` is never reached. -/
def connectFrom (outcome : Nat → Bool) (retryCount : Nat) : ConnectResult :=
  connectGo outcome retryCount (maxReconnectAttempts + 1 - retryCount)

/-- `connect()` as invoked from `onModuleInit`: retryCount starts at 0. -/
def connect (outcome : Nat → Bool) : ConnectResult :=
  connectFrom outcome 0

/-- The eventual fate of the asynchronous handler promise created by
invoking the consume callback (which is async and therefore never throws
synchronously). -/
inductive HandlerOutcome where
  | completed
  | failedAsync
  | stillRunning
deriving DecidableEq, Repr

/-- Observable per-message effects of the consumer registered by
`RabbitMQService.consumeMessages` (rabbitmq.service.ts lines 198-205). -/
inductive ConsumeEffect where
  | invokeHandler (fate : HandlerOutcome)
  | ack
deriving DecidableEq, Repr

/-- One message delivery inside `consumeMessages` (lines 199-204): the
callback is invoked — as an async function it returns a promise at once,
which the source does not await — and `channel.ack(msg)` follows
immediately; nothing can crash the consumer.  Returns (effect trace,
whether the consumer loop crashed). -/
def deliverMessage {α : Type} (handler : α → HandlerOutcome) (content : α) :
    List ConsumeEffect × Bool :=
  ([ConsumeEffect.invokeHandler (handler content), ConsumeEffect.ack], false)

/-- The consumer loop over a sequence of delivered messages: each message
is processed by `deliverMessage`; the loop crashes iff some delivery
crashes. -/
def consumeLoop {α : Type} (handler : α → HandlerOutcome) :
    List α → List ConsumeEffect × Bool
  | [] => ([], false)
  | m :: rest =>
    let d := deliverMessage handler m
    let r := consumeLoop handler rest
    (d.1 ++ r.1, d.2 || r.2)

/-- Number of acknowledgments in a consume trace. -/
def ackCount (trace : List ConsumeEffect) : Nat :=
  trace.countP (fun e => e == ConsumeEffect.ack)

/-- Did the operation return successfully (no exception)? -/
def isOkResult (r : Except ServiceError Order) : Bool :=
  match r with
  | Except.ok _ => true
  | Except.error _ => false

/-- Is the result the structured insufficient-stock BadRequestException? -/
def isInsufficientStockError (r : Except ServiceError Order) : Bool :=
  match r with
  | Except.error (ServiceError.insufficientStock _) => true
  | _ => false

/-- Total of the order returned by a creation result, when it succeeded. -/
def createdTotal (r : OpResult) : Option Nat :=
  match r.1 with
  | Except.ok o => some o.total
  | Except.error _ => none

/-- Item subtotals of the order returned by a creation result. -/
def createdSubtotals (r : OpResult) : Option (List Nat) :=
  match r.1 with
  | Except.ok o => some (o.items.map (fun it => it.subtotal))
  | Except.error _ => none

/-- Sample stored item used by the concrete test orders below. -/
def sampleItem : OrderItem :=
  { productId := "p1"
    productName := "Producto de Ejemplo"
    productImageUrl := "https://via.placeholder.com/150"
    unitPrice := 10000
    quantity := 1
    subtotal := 10000 }

/-- A stored order in status `en_procesamiento`. -/
def orderEnProc : Order :=
  { id := "o1"
    clientId := "c1"
    clientName := "Cliente Uno"
    clientEmail := "c1@censudex.cl"
    shippingAddress := "Calle 1"
    status := .en_procesamiento
    total := 10000
    trackingNumber := none
    cancellationReason := none
    shippedAt := none
    deliveredAt := none
    cancelledAt := none
    items := [sampleItem]
    isDeleted := false }

/-- A stored order in status `pendiente`. -/
def orderPend : Order :=
  { orderEnProc with id := "o2", status := .pendiente }

/-- An update request to `enviado` carrying a tracking number. -/
def dtoEnviado : UpdateOrderStatusDto :=
  { status := .enviado, trackingNumber := some "TRACK-1" }

/-- The creation command of spec section 8: two items, quantities 2 and 1
(CreateOrderDto has no price field). -/
def dtoTwoItems : CreateOrderDto :=
  { clientId := "c1"
    clientName := "Cliente Uno"
    clientEmail := "c1@censudex.cl"
    shippingAddress := "Calle 1"
    items := [ { productId := "p1", quantity := 2 },
               { productId := "p2", quantity := 1 } ] }

/-- A stock-check response reporting one unavailable product. -/
def stockFailOne : StockResult :=
  { allAvailable := false, unavailable := [("p1", 2, 0)] }

/-- `validateStatusTransition` succeeds exactly on the edges of the
transition table. -/
theorem validate_ok_iff (cur req : Status) :
    validateStatusTransition cur req = Except.ok () ↔
      (cur, req) ∈ transitionTable := by
  cases cur <;> cases req <;> decide

/-- Off the table, `validateStatusTransition` throws the invalid-transition
BadRequestException. -/
theorem validate_err (cur req : Status)
    (h : (cur, req) ∉ transitionTable) :
    validateStatusTransition cur req =
      Except.error (ServiceError.badRequest invalidTransitionMsg) := by
  revert h
  cases cur <;> cases req <;> decide

/-- On an invalid transition, `transitionStep` rethrows the validation
error without touching the order. -/
theorem transitionStep_err (o : Order) (req : Status)
    (h : (o.status, req) ∉ transitionTable) :
    transitionStep o req =
      Except.error (ServiceError.badRequest invalidTransitionMsg) := by
  unfold transitionStep
  rw [validate_err o.status req h]

/-- C2: for every pair (current, requested) of statuses, the transition
validation succeeds exactly when the pair is an edge of the table
{pendiente to en_procesamiento or cancelado, en_procesamiento to enviado
or cancelado, enviado to entregado or cancelado}; on a table edge the
transition produces exactly the requested status, and for every pair not
in the table (including any transition out of entregado and cancelado) it
fails with the invalid-transition validation error and `updateStatus`
leaves the store untouched with no side effects. -/
theorem c2_transition_table_exact (cur req : Status) :
    (validateStatusTransition cur req = Except.ok () ↔
        (cur, req) ∈ transitionTable) ∧
    (∀ o : Order, o.status = cur →
      ((cur, req) ∈ transitionTable →
        transitionStep o req = Except.ok { o with status := req }) ∧
      ((cur, req) ∉ transitionTable →
        transitionStep o req =
          Except.error (ServiceError.badRequest invalidTransitionMsg))) ∧
    (∀ (store : List Order) (now : Nat) (id : String)
        (dto : UpdateOrderStatusDto) (o : Order),
      findOne store id = some o → o.status = cur → dto.status = req →
      (cur, req) ∉ transitionTable →
      updateStatus store now id dto =
        (Except.error (ServiceError.badRequest invalidTransitionMsg),
         store, [])) := by
  refine ⟨validate_ok_iff cur req, ?_, ?_⟩
  · intro o ho
    constructor
    · intro hmem
      unfold transitionStep
      rw [ho, (validate_ok_iff cur req).mpr hmem]
    · intro hmem
      unfold transitionStep
      rw [ho, validate_err cur req hmem]
  · intro store now id dto o hfind hst hreq hmem
    have herr : transitionStep o dto.status =
        Except.error (ServiceError.badRequest invalidTransitionMsg) := by
      apply transitionStep_err
      rw [hst, hreq]
      exact hmem
    simp [updateStatus, hfind, herr]

/-- Witness for C2: the edge (pendiente, cancelado) is accepted and
produces cancelado; the non-edge (pendiente, entregado) makes updateStatus
fail and leave the store unchanged with no effects. -/
theorem c2_transition_table_exact_witness :
    transitionStep orderPend Status.cancelado =
      Except.ok { orderPend with status := Status.cancelado } ∧
    updateStatus [orderPend] 3 "o2"
        { status := Status.entregado, trackingNumber := none } =
      (Except.error (ServiceError.badRequest invalidTransitionMsg),
       [orderPend], []) := by
  constructor
  · exact ((c2_transition_table_exact Status.pendiente Status.cancelado).2.1
      orderPend rfl).1 (by decide)
  · exact (c2_transition_table_exact Status.pendiente Status.entregado).2.2
      [orderPend] 3 "o2" { status := Status.entregado, trackingNumber := none }
      orderPend rfl rfl rfl (by decide)

/-- C4: whenever the stock check reports `allAvailable = false`, creation
aborts entirely: the store is unchanged (no Order, no OrderItem
persisted), no side effect happens, and the call fails with the structured
insufficient-stock error enumerating exactly the unavailable items. -/
theorem c4_insufficient_stock_aborts (productsWithStock : StockResult)
    (h : productsWithStock.allAvailable = false) :
    ∀ (store : List Order) (newId : String) (dto : CreateOrderDto),
      createCore productsWithStock store newId dto =
        (Except.error
          (ServiceError.insufficientStock productsWithStock.unavailable),
         store, []) := by
  intro store newId dto
  unfold createCore
  rw [h]
  simp

/-- Witness for C4: a concrete failing stock response aborts creation. -/
theorem c4_insufficient_stock_aborts_witness :
    createCore stockFailOne [] "o1" dtoTwoItems =
      (Except.error (ServiceError.insufficientStock [("p1", 2, 0)]),
       [], []) :=
  c4_insufficient_stock_aborts stockFailOne rfl [] "o1" dtoTwoItems

/-- C5: requesting `enviado` on an order in `en_procesamiento` without a
non-empty tracking number fails with the tracking validation error before
any persistence call and before any observable mutation: the store is
returned unchanged and the effect trace is empty. -/
theorem c5_tracking_required (store : List Order) (now : Nat) (id : String)
    (dto : UpdateOrderStatusDto) (o : Order)
    (hfind : findOne store id = some o)
    (hst : o.status = Status.en_procesamiento)
    (henv : dto.status = Status.enviado)
    (htrack : dto.trackingNumber = none ∨ dto.trackingNumber = some "") :
    updateStatus store now id dto =
      (Except.error (ServiceError.badRequest trackingRequiredMsg),
       store, []) := by
  have hok : transitionStep o Status.enviado =
      Except.ok { o with status := Status.enviado } := by
    unfold transitionStep
    rw [hst]
    rfl
  rcases htrack with ht | ht <;>
    simp [updateStatus, hfind, hok, henv, ht]

/-- C6: for every cancel call on an existing, non-deleted order: when its
status is entregado or cancelado the call fails and nothing changes; when
its status is pendiente, en_procesamiento or enviado the call succeeds,
sets status cancelado, sets cancelledAt, and records a non-empty
cancellationReason, defaulting to "Cancelado por el usuario" when none is
supplied. -/
theorem c6_cancel_policy (store : List Order) (now : Nat) (id : String)
    (dto : CancelOrderDto) (o : Order)
    (hfind : findOne store id = some o) :
    ((o.status = Status.entregado ∨ o.status = Status.cancelado) →
      cancel store now id dto =
        (Except.error (ServiceError.badRequest cannotCancelMsg),
         store, [])) ∧
    ((o.status = Status.pendiente ∨ o.status = Status.en_procesamiento ∨
        o.status = Status.enviado) →
      ∃ o1 : Order,
        cancel store now id dto =
          (Except.ok o1, saveOrder store o1,
           [Effect.repoSave o1, Effect.email EmailKind.cancellation]) ∧
        o1.status = Status.cancelado ∧
        o1.cancelledAt = some now ∧
        (∃ r : String, o1.cancellationReason = some r ∧ (r == "") = false) ∧
        (dto.cancellationReason = none →
          o1.cancellationReason = some "Cancelado por el usuario")) := by
  constructor
  · intro hterm
    rcases hterm with h | h <;> simp [cancel, hfind, h]
  · intro hact
    have hguard : (o.status == Status.entregado ||
        o.status == Status.cancelado) = false := by
      rcases hact with h | h | h <;> rw [h] <;> rfl
    match hdto : dto.cancellationReason with
    | none =>
      refine ⟨{ o with
                  status := Status.cancelado
                  cancellationReason := some "Cancelado por el usuario"
                  cancelledAt := some now },
              ?_, rfl, rfl, ⟨"Cancelado por el usuario", rfl, rfl⟩,
              fun _ => rfl⟩
      simp [cancel, hfind, hguard, hdto]
    | some r =>
      by_cases hr : (r == "") = true
      · refine ⟨{ o with
                    status := Status.cancelado
                    cancellationReason := some "Cancelado por el usuario"
                    cancelledAt := some now },
                ?_, rfl, rfl, ⟨"Cancelado por el usuario", rfl, rfl⟩,
                fun hn => Option.noConfusion hn⟩
        simp [cancel, hfind, hguard, hdto, hr]
      · have hrf : (r == "") = false := by
          simpa using hr
        refine ⟨{ o with
                    status := Status.cancelado
                    cancellationReason := some r
                    cancelledAt := some now },
                ?_, rfl, rfl, ⟨r, rfl, hrf⟩,
                fun hn => Option.noConfusion hn⟩
        simp [cancel, hfind, hguard, hdto, hrf]

/-- Witness for C6: cancelling a concrete entregado order fails; cancelling
a concrete pendiente order with no reason succeeds with the default
reason. -/
theorem c6_cancel_policy_witness :
    cancel [{ orderEnProc with status := Status.entregado }] 9 "o1"
        { cancellationReason := none } =
      (Except.error (ServiceError.badRequest cannotCancelMsg),
       [{ orderEnProc with status := Status.entregado }], []) ∧
    ∃ o1 : Order,
      cancel [orderPend] 9 "o2" { cancellationReason := none } =
        (Except.ok o1, saveOrder [orderPend] o1,
         [Effect.repoSave o1, Effect.email EmailKind.cancellation]) ∧
      o1.status = Status.cancelado ∧
      o1.cancelledAt = some 9 ∧
      (∃ r : String, o1.cancellationReason = some r ∧ (r == "") = false) ∧
      (CancelOrderDto.mk none |>.cancellationReason) = none := by
  constructor
  · exact (c6_cancel_policy [{ orderEnProc with status := Status.entregado }]
      9 "o1" { cancellationReason := none }
      { orderEnProc with status := Status.entregado } rfl).1 (Or.inl rfl)
  · obtain ⟨o1, h1, h2, h3, h4, _⟩ :=
      (c6_cancel_policy [orderPend] 9 "o2" { cancellationReason := none }
        orderPend rfl).2 (Or.inl rfl)
    exact ⟨o1, h1, h2, h3, h4, rfl⟩

/-- C3: a received order.failed.stock message whose referenced order does
not exist (or is soft-deleted) or is not pendiente is discarded with the
store completely unchanged; when the order exists with status pendiente
the handler cancels it with reason "Stock insuficiente" and persists it
(save followed by the best-effort cancellation email). -/
theorem c3_failed_stock_handler (store : List Order) (now : Nat)
    (data : FailedStockMessage) :
    (data.message = none → handleFailedStock store now data = (store, [])) ∧
    (∀ p : FailedStockPayload, data.message = some p → pickOrderId p = none →
      handleFailedStock store now data = (store, [])) ∧
    (∀ (p : FailedStockPayload) (oid : String),
      data.message = some p → pickOrderId p = some oid →
      findOne store oid = none →
      handleFailedStock store now data = (store, [])) ∧
    (∀ (p : FailedStockPayload) (oid : String) (o : Order),
      data.message = some p → pickOrderId p = some oid →
      findOne store oid = some o →
      (o.status ≠ Status.pendiente →
        handleFailedStock store now data = (store, [])) ∧
      (o.status = Status.pendiente →
        handleFailedStock store now data =
          (saveOrder store (cancelledByStock o now),
           [Effect.repoSave (cancelledByStock o now),
            Effect.email EmailKind.cancellation]) ∧
        (cancelledByStock o now).status = Status.cancelado ∧
        (cancelledByStock o now).cancellationReason =
          some "Stock insuficiente")) := by
  refine ⟨?_, ?_, ?_, ?_⟩
  · intro hmsg
    simp [handleFailedStock, hmsg]
  · intro p hmsg hpick
    simp [handleFailedStock, hmsg, hpick]
  · intro p oid hmsg hpick hfind
    simp [handleFailedStock, hmsg, hpick, hfind]
  · intro p oid o hmsg hpick hfind
    constructor
    · intro hne
      have hbe : (o.status != Status.pendiente) = true := by
        cases hs : o.status <;> simp_all
      simp [handleFailedStock, hmsg, hpick, hfind, hbe]
    · intro hpe
      have hbe : (o.status != Status.pendiente) = false := by
        rw [hpe]; rfl
      exact ⟨by simp [handleFailedStock, hmsg, hpick, hfind, hbe], rfl, rfl⟩

/-- Witness for C3: a stale failure event against an en_procesamiento
order is discarded; the same event against a pendiente order cancels it
with reason "Stock insuficiente". -/
theorem c3_failed_stock_handler_witness :
    handleFailedStock [orderEnProc] 4
        { message := some { orderId := some "o1", orderIdCap := none } } =
      ([orderEnProc], []) ∧
    handleFailedStock [orderPend] 4
        { message := some { orderId := some "o2", orderIdCap := none } } =
      (saveOrder [orderPend] (cancelledByStock orderPend 4),
       [Effect.repoSave (cancelledByStock orderPend 4),
        Effect.email EmailKind.cancellation]) := by
  constructor
  · exact (((c3_failed_stock_handler [orderEnProc] 4
      { message := some { orderId := some "o1", orderIdCap := none } }).2.2.2
      { orderId := some "o1", orderIdCap := none } "o1" orderEnProc
      rfl rfl rfl).1) (by decide)
  · exact (((c3_failed_stock_handler [orderPend] 4
      { message := some { orderId := some "o2", orderIdCap := none } }).2.2.2
      { orderId := some "o2", orderIdCap := none } "o2" orderPend
      rfl rfl rfl).2 rfl).1

/-- Witness for C5: concrete en_procesamiento order, enviado request with
no tracking number. -/
theorem c5_tracking_required_witness :
    updateStatus [orderEnProc] 5 "o1"
        { status := Status.enviado, trackingNumber := none } =
      (Except.error (ServiceError.badRequest trackingRequiredMsg),
       [orderEnProc], []) :=
  c5_tracking_required [orderEnProc] 5 "o1"
    { status := Status.enviado, trackingNumber := none }
    orderEnProc rfl rfl rfl (Or.inl rfl)

/-- C1 counterexample: a concrete updateStatus call moving an
en_procesamiento order to enviado succeeds, its trace contains both a
publish and a save, yet the publish precedes the save — the
publish-after-persist ordering claimed for updateStatus fails. -/
theorem c1_publish_before_save_cex :
    isOkResult (updateStatus [orderEnProc] 5 "o1" dtoEnviado).1 = true ∧
    (updateStatus [orderEnProc] 5 "o1" dtoEnviado).2.2.any isPublish = true ∧
    (updateStatus [orderEnProc] 5 "o1" dtoEnviado).2.2.any isSave = true ∧
    saveBeforePublish (updateStatus [orderEnProc] 5 "o1" dtoEnviado).2.2 =
      false :=
  ⟨rfl, rfl, rfl, rfl⟩

/-- C1 amended: for create, the repository save always happens before the
order.created publish; for every successful updateStatus call to enviado
or entregado, the event publish happens before the repository save (the
publish is inside the status switch, the save after it). -/
theorem c1_amended_ordering :
    (∀ (productsWithStock : StockResult) (store : List Order)
        (newId : String) (dto : CreateOrderDto),
      saveBeforePublish (createCore productsWithStock store newId dto).2.2 =
        true) ∧
    (∀ (store : List Order) (now : Nat) (id : String)
        (dto : UpdateOrderStatusDto),
      (dto.status = Status.enviado ∨ dto.status = Status.entregado) →
      isOkResult (updateStatus store now id dto).1 = true →
      ((updateStatus store now id dto).2.2.any isPublish = true ∧
       saveBeforePublish (updateStatus store now id dto).2.2 = false)) := by
  constructor
  · intro pw store newId dto
    unfold createCore
    by_cases h : pw.allAvailable <;>
      simp [h, saveBeforePublish, saveBeforePublishAux, isSave, isPublish]
  · intro store now id dto hst hok
    cases hfind : findOne store id with
    | none => simp [updateStatus, hfind, isOkResult] at hok
    | some o =>
      rcases hst with h | h
      · cases htr : transitionStep o Status.enviado with
        | error e => simp [updateStatus, hfind, h, htr, isOkResult] at hok
        | ok o1 =>
          cases htrack : dto.trackingNumber with
          | none =>
            simp [updateStatus, hfind, h, htr, htrack, isOkResult] at hok
          | some t =>
            cases hte : t == "" with
            | true =>
              simp [updateStatus, hfind, h, htr, htrack, hte, isOkResult]
                at hok
            | false =>
              constructor <;>
                simp [updateStatus, hfind, h, htr, htrack, hte,
                  saveBeforePublish, saveBeforePublishAux, isPublish, isSave]
      · cases htr : transitionStep o Status.entregado with
        | error e => simp [updateStatus, hfind, h, htr, isOkResult] at hok
        | ok o1 =>
          constructor <;>
            simp [updateStatus, hfind, h, htr, saveBeforePublish,
              saveBeforePublishAux, isPublish, isSave]

/-- Witness for C1 amended: concrete create and updateStatus calls. -/
theorem c1_amended_ordering_witness :
    saveBeforePublish
        (createCore (validateStock dtoTwoItems.items) [] "n1"
          dtoTwoItems).2.2 = true ∧
    ((updateStatus [orderEnProc] 6 "o1" dtoEnviado).2.2.any isPublish =
        true ∧
     saveBeforePublish (updateStatus [orderEnProc] 6 "o1" dtoEnviado).2.2 =
        false) :=
  ⟨c1_amended_ordering.1 (validateStock dtoTwoItems.items) [] "n1"
      dtoTwoItems,
   c1_amended_ordering.2 [orderEnProc] 6 "o1" dtoEnviado (Or.inl rfl) rfl⟩

/-- Shape of every `connectGo` run that starts within the attempt budget:
it never throws, its delays are exactly the backoff sequence from its
starting retryCount, it stays within the budget, and it makes one more
attempt than it waits delays.  Helper for the C7 theorems. -/
theorem connectGo_spec (outcome : Nat → Bool) :
    ∀ (fuel n : Nat), n + fuel = maxReconnectAttempts + 1 →
      n ≤ maxReconnectAttempts →
      (connectGo outcome n fuel).threwToCaller = false ∧
      (connectGo outcome n fuel).delays =
        (List.range' n (connectGo outcome n fuel).delays.length).map
          backoffDelay ∧
      n + (connectGo outcome n fuel).delays.length ≤
        maxReconnectAttempts ∧
      (connectGo outcome n fuel).attempts =
        (connectGo outcome n fuel).delays.length + 1 := by
  intro fuel
  induction fuel with
  | zero =>
    intro n h1 h2
    omega
  | succ fuel ih =>
    intro n h1 h2
    cases ho : outcome n with
    | true =>
      refine ⟨?_, ?_, ?_, ?_⟩ <;> simp [connectGo, ho]
      omega
    | false =>
      by_cases hn : n < maxReconnectAttempts
      · obtain ⟨ih1, ih2, ih3, ih4⟩ := ih (n + 1) (by omega) (by omega)
        have hgo : connectGo outcome n (fuel + 1) =
            { attempts := (connectGo outcome (n + 1) fuel).attempts + 1
              delays :=
                backoffDelay n :: (connectGo outcome (n + 1) fuel).delays
              connected := (connectGo outcome (n + 1) fuel).connected
              threwToCaller :=
                (connectGo outcome (n + 1) fuel).threwToCaller } := by
          simp [connectGo, ho, hn]
        rw [hgo]
        refine ⟨ih1, ?_, ?_, ?_⟩
        · simp only [List.length_cons, List.range'_succ, List.map_cons]
          exact congrArg (fun l => backoffDelay n :: l) ih2
        · simp only [List.length_cons]
          omega
        · simp only [List.length_cons, ih4]
      · refine ⟨?_, ?_, ?_, ?_⟩ <;> simp [connectGo, ho, hn]
        omega

/-- C7 counterexample: with every attempt failing, connect makes 11
attempts (1 initial + 10 retries) with the exponential delays, and then
resolves normally — `threwToCaller = false`, so no fatal connectivity
error is surfaced to the caller, contrary to the claim. -/
theorem c7_no_error_surfaced_cex :
    connect (fun _ => false) =
      { attempts := 11
        delays := [1000, 2000, 4000, 8000, 16000,
                   30000, 30000, 30000, 30000, 30000]
        connected := false
        threwToCaller := false } :=
  rfl

/-- C7 amended: on connect() failure the broker connection retries with
exponential backoff — the k-th delay (0-based) is
min(1000ms * 2^k, 30000ms) — for at most 10 retries (11 attempts in
total); after exhausting the attempts it logs the fatal connectivity
failure and returns normally, surfacing no error to the caller and not
crashing the process. -/
theorem c7_amended_backoff (outcome : Nat → Bool) :
    (connect outcome).threwToCaller = false ∧
    (connect outcome).delays =
      (List.range ((connect outcome).delays.length)).map backoffDelay ∧
    (connect outcome).delays.length ≤ maxReconnectAttempts ∧
    (connect outcome).attempts = (connect outcome).delays.length + 1 := by
  obtain ⟨h1, h2, h3, h4⟩ :=
    connectGo_spec outcome (maxReconnectAttempts + 1 - 0) 0 (by omega)
      (by omega)
  have hc : connect outcome =
      connectGo outcome 0 (maxReconnectAttempts + 1 - 0) := rfl
  rw [hc]
  refine ⟨h1, ?_, by omega, h4⟩
  rw [List.range_eq_range']
  exact h2

/-- Witness for C7 amended: the theorem instantiated at the concrete
environment where the first attempt succeeds. -/
theorem c7_amended_backoff_witness :
    (connect (fun _ => true)).threwToCaller = false ∧
    (connect (fun _ => true)).delays =
      (List.range ((connect (fun _ => true)).delays.length)).map
        backoffDelay ∧
    (connect (fun _ => true)).delays.length ≤ maxReconnectAttempts ∧
    (connect (fun _ => true)).attempts =
      (connect (fun _ => true)).delays.length + 1 :=
  c7_amended_backoff (fun _ => true)

/-- C8 counterexample: creating an order with items
[(p1, qty 2), (p2, qty 1)] — CreateOrderDto carries no price field — gives
total 30000 and subtotals [20000, 10000], because getProductDetails prices
every product at 10000; the claimed total 2500 and subtotals [2000, 500]
do not occur. -/
theorem c8_claimed_totals_cex :
    createdTotal (create [] "o1" dtoTwoItems) = some 30000 ∧
    (createdTotal (create [] "o1" dtoTwoItems) == some 2500) = false ∧
    createdSubtotals (create [] "o1" dtoTwoItems) = some [20000, 10000] ∧
    (createdSubtotals (create [] "o1" dtoTwoItems) ==
      some [2000, 500]) = false :=
  ⟨rfl, rfl, rfl, rfl⟩

/-- C8 amended: for the create command with items [(p1, qty 2),
(p2, qty 1)], the created order has total 30000 and exactly two OrderItems
with subtotals 20000 and 10000 — each subtotal is the unit price returned
by the product lookup (fixed at 10000 for every product) times the item
quantity, and the total is the sum of the subtotals. -/
theorem c8_amended_totals :
    ∃ o : Order, (create [] "o1" dtoTwoItems).1 = Except.ok o ∧
      o.total = 30000 ∧
      o.items.map (fun it => it.subtotal) = [20000, 10000] ∧
      o.items.map (fun it => it.subtotal) =
        o.items.map (fun it => it.unitPrice * it.quantity) ∧
      o.total = (o.items.map (fun it => it.subtotal)).sum :=
  ⟨_, rfl, rfl, rfl, rfl, rfl⟩

/-- C9: validateStock returns { allAvailable := true, unavailable := [] }
for every item list (its catch branch returns the same value), so the
insufficient-stock branch of create is unreachable: create never fails —
for lack of stock or otherwise — in this embedding. -/
theorem c9_stock_always_available :
    (∀ items : List CreateOrderItemDto,
      validateStock items = { allAvailable := true, unavailable := [] }) ∧
    (∀ (store : List Order) (newId : String) (dto : CreateOrderDto),
      isInsufficientStockError (create store newId dto).1 = false ∧
      isOkResult (create store newId dto).1 = true) := by
  refine ⟨fun items => rfl, fun store newId dto => ⟨rfl, rfl⟩⟩

/-- Witness for C9: the stock check and a concrete creation evaluated. -/
theorem c9_stock_always_available_witness :
    validateStock dtoTwoItems.items =
      { allAvailable := true, unavailable := [] } ∧
    isInsufficientStockError (create [] "n9" dtoTwoItems).1 = false ∧
    isOkResult (create [] "n9" dtoTwoItems).1 = true :=
  ⟨c9_stock_always_available.1 dtoTwoItems.items,
   (c9_stock_always_available.2 [] "n9" dtoTwoItems).1,
   (c9_stock_always_available.2 [] "n9" dtoTwoItems).2⟩

/-- C10: every message delivered to a consumer registered through
consumeMessages is acknowledged unconditionally — the trace of each
delivery is the handler invocation immediately followed by the ack,
whatever the asynchronous fate of the handler promise — and the consumer
loop never crashes; over any message sequence the number of acks equals
the number of messages. -/
theorem c10_unconditional_ack (α : Type) (handler : α → HandlerOutcome)
    (msgs : List α) :
    (consumeLoop handler msgs).2 = false ∧
    ackCount (consumeLoop handler msgs).1 = msgs.length ∧
    (consumeLoop handler msgs).1 =
      (msgs.map (fun m =>
        [ConsumeEffect.invokeHandler (handler m),
         ConsumeEffect.ack])).flatten := by
  induction msgs with
  | nil => exact ⟨rfl, rfl, rfl⟩
  | cons m rest ih =>
    obtain ⟨h1, h2, h3⟩ := ih
    refine ⟨?_, ?_, ?_⟩
    · simp [consumeLoop, deliverMessage, h1]
    · simp only [consumeLoop, deliverMessage, ackCount,
        List.countP_append] at h2 ⊢
      simp [h2]
      omega
    · simp [consumeLoop, deliverMessage, h3]

/-- Witness for C10: the theorem instantiated on two messages handled by
an always-failing asynchronous handler. -/
theorem c10_unconditional_ack_witness :
    (consumeLoop (fun _ : Nat => HandlerOutcome.failedAsync) [1, 2]).2 =
      false ∧
    ackCount
      (consumeLoop (fun _ : Nat => HandlerOutcome.failedAsync) [1, 2]).1 =
      ([1, 2] : List Nat).length ∧
    (consumeLoop (fun _ : Nat => HandlerOutcome.failedAsync) [1, 2]).1 =
      (([1, 2] : List Nat).map (fun m =>
        [ConsumeEffect.invokeHandler
          ((fun _ : Nat => HandlerOutcome.failedAsync) m),
         ConsumeEffect.ack])).flatten :=
  c10_unconditional_ack Nat (fun _ => HandlerOutcome.failedAsync) [1, 2]

end Censudex
